import Mathlib

/-!
# Verification of the DEX routing/quoting core

Shallow embedding of the shared `BaseDexService` and the three chain
adapters (`KalySwapService`, `UniswapV2Service`/Camelot, `PancakeSwapService`)
of the frontend repository, together with theorems settling the frozen
claims about the routing, quoting, price-impact and swap-execution logic.

Modelling conventions:
* On-chain state (factory pair mapping, pair contracts, router simulation)
  is a record of pure functions; `Option.none` models an RPC/contract-call
  failure (a thrown exception on the TypeScript side).
* The nullable `publicClient` argument is modelled by a boolean `hc`
  ("has client"); the code throws a `NO_CLIENT` error when it is absent.
* Numeric model, two tiers.  The quote and route paths exercised below
  perform no float arithmetic before the facts proved about them (they
  fail, short-circuit, or return `0` from an arithmetic-free branch); they
  use `calculatePriceImpact`, which holds JS doubles as exact rationals
  and collapses the JS `NaN` outcomes to `0`.  For facts about the numeric
  range of the price impact, `calculatePriceImpactJs` refines the model:
  `NaN` (unparseable amount, `0 / 0`, `Infinity / Infinity`) and positive
  `Infinity` (`parseFloat` saturation and addition overflow, at the exact
  binary64 round-to-nearest-even threshold `2 ^ 1024 - 2 ^ 970`) are
  tracked exactly — these special-value rules involve no rounding, so the
  refinement is faithful on them.  Rounding of *finite* double arithmetic
  is not modelled: finite values are exact rationals.  Interval-membership
  facts survive this (rounding is monotone and the clamp endpoints 0 and
  100 are exactly representable doubles); strict inequalities between
  computed impacts do not, and no theorem below states one.
* `viem`'s `parseUnits`/`formatUnits` are modelled on canonical decimal
  digit strings.
-/

set_option maxRecDepth 8192

namespace Dex

/-- A token as in `@/config/dex/types`: address, symbol, decimals and the
native-coin flag are the fields the routing/quoting core reads. -/
structure Token where
  address : String
  symbol : String
  decimals : Nat
  isNative : Bool
  deriving DecidableEq, Repr

/-- The per-chain DEX configuration consumed by `BaseDexService`:
token list, router address and wrapped-native (`wethAddress`) address. -/
structure DexConfig where
  tokens : List Token
  router : String
  factory : String
  wethAddress : String
  deriving DecidableEq, Repr

/-- Abstract on-chain read state.  Each field models one read-only
contract call; `none` models a thrown RPC/contract error. -/
structure ChainState where
  getPair : String → String → Option String
  pairToken0 : String → Option String
  pairReserves : String → Option (Nat × Nat)
  pairTotalSupply : String → Option Nat
  getAmountsOut : Nat → List String → Option (List Nat)

/-- The all-zero sentinel the factory returns for "pair never created". -/
def ZERO_ADDRESS : String := "0x0000000000000000000000000000000000000000"

/-- WKLC contract address hardcoded in `KalySwapService`. -/
def WKLC_ADDRESS : String := "0x069255299Bb729399f3CECaBdc73d15d3D10a2A3"

/-- WETH contract address hardcoded in `UniswapV2Service` (Camelot). -/
def WETH_ADDRESS : String := "0x82aF49447D8a07e3bd95BD0d56f35241523fBab1"

/-- WBNB contract address hardcoded in `PancakeSwapService`. -/
def WBNB_ADDRESS : String := "0xbb4CdB9CBd36B01bD1cBaEBF2De08d9173bc095c"

/-- Error taxonomy of the DEX services.  Modelled from the spec: the
`IDexService` module defining `DexError`, `PairNotFoundError` and
`SwapFailedError` is not among the provided sources; per the spec's error
taxonomy (§7) and the use sites, `PairNotFoundError`/`SwapFailedError`
are `DexError`s (so `getQuote`'s catch clause rethrows them unchanged)
with the distinct conditions modelled by these constructors. -/
inductive DexErr where
  | PairNotFound
  | QuoteFailed
  | NoClient
  | NoWallet
  | NoAccount
  | SwapFailed
  deriving DecidableEq, Repr

/-- `QuoteResult` as produced by `getQuote`.  `priceImpact` is modelled as
a rational (the Camelot adapter's wrap branch writes the string `'0'`,
semantically the same zero); `gasEstimate` is absent from the adapters'
wrap/unwrap branch, hence optional. -/
structure QuoteResult where
  amountOut : String
  priceImpact : ℚ
  route : List String
  gasEstimate : Option String
  deriving DecidableEq, Repr

/-! ## Decimal-string arithmetic (model of `viem`'s parse/format and JS `parseFloat`) -/

/-- Model of JS `toLowerCase` (character-wise, enough for hex addresses). -/
def strToLower (s : String) : String := String.mk (s.data.map Char.toLower)

/-- Model of JS `toUpperCase` (character-wise, enough for token symbols). -/
def strToUpper (s : String) : String := String.mk (s.data.map Char.toUpper)

/-- Value of a nonempty all-digit character list. -/
def digitsToNat? (cs : List Char) : Option Nat :=
  if cs ≠ [] ∧ cs.all Char.isDigit then
    some (cs.foldl (fun n c => n * 10 + (c.toNat - 48)) 0)
  else none

/-- Split a character list at `'.'` separators (the splitting JS/`viem`
perform on a decimal amount string). -/
def splitDot : List Char → List (List Char)
  | [] => [[]]
  | c :: cs =>
    match splitDot cs with
    | r :: rs => if c = '.' then [] :: r :: rs else (c :: r) :: rs
    | [] => if c = '.' then [[], []] else [[c]]

/-- Model of JS `parseFloat` (and of the numeric value of a decimal
string), on canonical digit strings `"123"` / `"123.45"`; `none` models
`NaN`. -/
def parseDecimalQ (s : String) : Option ℚ :=
  match splitDot s.data with
  | [i] => (digitsToNat? i).map (fun n => (n : ℚ))
  | [i, f] =>
    match digitsToNat? i, digitsToNat? f with
    | some iN, some fN => some ((iN : ℚ) + (fN : ℚ) / (10 : ℚ) ^ f.length)
    | _, _ => none
  | _ => none

/-- Model of `viem`'s `parseUnits`: human-readable decimal string to
integer base units, exact when the fraction fits in `decimals` digits. -/
def parseUnits (s : String) (decimals : Nat) : Option Nat :=
  match splitDot s.data with
  | [i] => (digitsToNat? i).map (fun n => n * 10 ^ decimals)
  | [i, f] =>
    if f.length ≤ decimals then
      match digitsToNat? i, digitsToNat? f with
      | some iN, some fN => some (iN * 10 ^ decimals + fN * 10 ^ (decimals - f.length))
      | _, _ => none
    else none
  | _ => none

/-- Left-pad a digit string with zeros to the given length. -/
def padLeftZeros (s : String) (len : Nat) : String :=
  String.mk (List.replicate (len - s.length) '0') ++ s

/-- Drop trailing `'0'` characters. -/
def dropTrailingZeros (s : String) : String :=
  String.mk (s.data.reverse.dropWhile (· == '0')).reverse

/-- Model of `viem`'s `formatUnits`: integer base units back to a
human-readable decimal string. -/
def formatUnits (n : Nat) (decimals : Nat) : String :=
  let base := 10 ^ decimals
  let ip := n / base
  let fp := n % base
  if fp = 0 then toString ip
  else toString ip ++ "." ++ dropTrailingZeros (padLeftZeros (toString fp) decimals)

deriving instance DecidableEq for Except

/-! ## `BaseDexService` common implementations -/

/-- Native tokens are addressed through the wrapped-native contract:
`token.isNative ? this.getWethAddress() : token.address`. -/
def resolveAddress (cfg : DexConfig) (t : Token) : String :=
  if t.isNative then cfg.wethAddress else t.address

/-- `BaseDexService.getPairAddress`: resolves native tokens to the wrapped
address, queries the factory's `getPair`, returns `none` for the all-zero
sentinel; any thrown error (missing client, RPC failure) is caught and
becomes `none`. -/
def getPairAddress (cfg : DexConfig) (chain : ChainState) (hc : Bool)
    (tokenA tokenB : Token) : Option String :=
  if !hc then none
  else
    let addressA := resolveAddress cfg tokenA
    let addressB := resolveAddress cfg tokenB
    match chain.getPair addressA addressB with
    | none => none
    | some pairAddress =>
      if pairAddress == ZERO_ADDRESS then none else some pairAddress

/-- `BaseDexService.canSwapDirectly`: a direct pair exists. -/
def canSwapDirectly (cfg : DexConfig) (chain : ChainState) (hc : Bool)
    (tokenA tokenB : Token) : Bool :=
  (getPairAddress cfg chain hc tokenA tokenB).isSome

/-- `PairInfo` as returned by `BaseDexService.getPairInfo`.  Reserves and
total supply are stringified big-ints in the source; modelled as `Nat`. -/
structure PairInfo where
  token0 : Token
  token1 : Token
  pairAddress : String
  reserve0 : Nat
  reserve1 : Nat
  totalSupply : Nat
  deriving DecidableEq, Repr

/-- `BaseDexService.getPairInfo`: resolves the pair address, then reads
reserves and total supply from the pair contract; any failure is caught
and becomes `none`.  Note the returned `token0`/`token1` are the caller's
`tokenA`/`tokenB` while `reserve0`/`reserve1` come from the pair contract
in factory order. -/
def getPairInfo (cfg : DexConfig) (chain : ChainState) (hc : Bool)
    (tokenA tokenB : Token) : Option PairInfo :=
  match getPairAddress cfg chain hc tokenA tokenB with
  | none => none
  | some pairAddress =>
    if !hc then none
    else
      match chain.pairReserves pairAddress, chain.pairTotalSupply pairAddress with
      | some (r0, r1), some ts =>
        some { token0 := tokenA, token1 := tokenB, pairAddress := pairAddress,
               reserve0 := r0, reserve1 := r1, totalSupply := ts }
      | _, _ => none

/-- The arithmetic core of `calculatePriceImpact`:
`Math.min(amountIn / (reserveIn + amountIn) * 100, 100)`. -/
def priceImpactFormula (reserveInFormatted amountInValue : ℚ) : ℚ :=
  min (amountInValue / (reserveInFormatted + amountInValue) * 100) 100

/-- `BaseDexService.calculatePriceImpact`: resolves the direct
`tokenIn`/`tokenOut` pair (0 if absent), reads reserves and `token0` from
the pair contract, selects the input-side reserve by comparing the
resolved form of `tokenIn` against `token0` (lower-cased), and applies the
clamped constant-product impact formula.  Read failures are caught and
become 0. -/
def calculatePriceImpact (cfg : DexConfig) (chain : ChainState) (hc : Bool)
    (tokenIn : Token) (_tokenOut : Token) (amountIn : String) : ℚ :=
  match getPairAddress cfg chain hc tokenIn _tokenOut with
  | none => 0
  | some pairAddress =>
    match chain.pairReserves pairAddress, chain.pairToken0 pairAddress with
    | some (r0, r1), some token0Address =>
      let tokenInAddress := resolveAddress cfg tokenIn
      let isTokenInToken0 := strToLower token0Address == strToLower tokenInAddress
      let reserveIn := if isTokenInToken0 then r0 else r1
      let reserveInFormatted : ℚ := (reserveIn : ℚ) / (10 : ℚ) ^ tokenIn.decimals
      match parseDecimalQ amountIn with
      | some amountInValue => priceImpactFormula reserveInFormatted amountInValue
      | none => 0
    | _, _ => 0

/-! ## JS special-value refinement of the price-impact computation

`calculatePriceImpact` above erases the IEEE-754 special values the
source can produce; the refinement below tracks them exactly.  The rules
involved (`NaN` from `0 / 0` and from `Infinity / Infinity`, `NaN`
propagation through `*` and `Math.min`, overflow to `Infinity` at the
round-to-nearest-even threshold) are exact case distinctions of the
binary64 semantics, not rounding behaviour, so no precision is lost in
them; only finite-arithmetic rounding remains unmodelled. -/

/-- One bridge attempt: both legs must have pairs. -/
def tryBridgeToken (cfg : DexConfig) (chain : ChainState) (hc : Bool)
    (tokenIn tokenOut bridge : Token) (addressIn bridgeAddr addressOut : String) :
    Option (List String) :=
  if canSwapDirectly cfg chain hc tokenIn bridge &&
     canSwapDirectly cfg chain hc bridge tokenOut then
    some [addressIn, bridgeAddr, addressOut]
  else none

/-- The wrapped-native bridge attempt: skipped when either resolved
endpoint already is the wrapped-native address; the wrapped token is
looked up in the config token list by (lower-cased) address. -/
def tryWrappedNative (cfg : DexConfig) (chain : ChainState) (hc : Bool)
    (tokenIn tokenOut : Token) (addressIn addressOut : String) :
    Option (List String) :=
  let wethAddress := cfg.wethAddress
  if addressIn != wethAddress && addressOut != wethAddress then
    match cfg.tokens.find? (fun t => strToLower t.address == strToLower wethAddress) with
    | some wethToken =>
      tryBridgeToken cfg chain hc tokenIn tokenOut wethToken addressIn wethAddress addressOut
    | none => none
  else none

/-- A stablecoin bridge attempt: the bridge token is looked up in the
config token list by symbol and skipped when either resolved endpoint is
the bridge's address. -/
def tryStable (cfg : DexConfig) (chain : ChainState) (hc : Bool)
    (tokenIn tokenOut : Token) (addressIn addressOut : String) (sym : String) :
    Option (List String) :=
  match cfg.tokens.find? (fun t => t.symbol == sym) with
  | some sTok =>
    if addressIn != sTok.address && addressOut != sTok.address then
      tryBridgeToken cfg chain hc tokenIn tokenOut sTok addressIn sTok.address addressOut
    else none
  | none => none

/-- Try the stablecoin bridge symbols in order, returning the first route
found. -/
def tryStables (cfg : DexConfig) (chain : ChainState) (hc : Bool)
    (tokenIn tokenOut : Token) (addressIn addressOut : String) :
    List String → Option (List String)
  | [] => none
  | sym :: rest =>
    match tryStable cfg chain hc tokenIn tokenOut addressIn addressOut sym with
    | some r => some r
    | none => tryStables cfg chain hc tokenIn tokenOut addressIn addressOut rest

/-- Shared shape of `getSwapRoute`: resolve native endpoints, direct pair
first, then the wrapped-native bridge, then the given stablecoin bridge
symbols in order, else the empty route. -/
def routeWithStables (cfg : DexConfig) (chain : ChainState) (hc : Bool)
    (syms : List String) (tokenIn tokenOut : Token) : List String :=
  let addressIn := resolveAddress cfg tokenIn
  let addressOut := resolveAddress cfg tokenOut
  if canSwapDirectly cfg chain hc tokenIn tokenOut then [addressIn, addressOut]
  else
    match tryWrappedNative cfg chain hc tokenIn tokenOut addressIn addressOut with
    | some r => r
    | none =>
      match tryStables cfg chain hc tokenIn tokenOut addressIn addressOut syms with
      | some r => r
      | none => []

/-- `BaseDexService.getSwapRoute`: direct pair, then wrapped-native
bridge, no stablecoin fallback. -/
def baseGetSwapRoute (cfg : DexConfig) (chain : ChainState) (hc : Bool)
    (tokenIn tokenOut : Token) : List String :=
  routeWithStables cfg chain hc [] tokenIn tokenOut

/-- `KalySwapService.getSwapRoute`: direct, wrapped-native (WKLC), USDT. -/
def kalyGetSwapRoute (cfg : DexConfig) (chain : ChainState) (hc : Bool)
    (tokenIn tokenOut : Token) : List String :=
  routeWithStables cfg chain hc ["USDT"] tokenIn tokenOut

/-- `UniswapV2Service.getSwapRoute` (Camelot on Arbitrum): direct,
wrapped-native (WETH), USDC, USDT. -/
def camelotGetSwapRoute (cfg : DexConfig) (chain : ChainState) (hc : Bool)
    (tokenIn tokenOut : Token) : List String :=
  routeWithStables cfg chain hc ["USDC", "USDT"] tokenIn tokenOut

/-- `PancakeSwapService.getSwapRoute` (BSC): direct, wrapped-native
(WBNB), USDT, BUSD. -/
def pancakeGetSwapRoute (cfg : DexConfig) (chain : ChainState) (hc : Bool)
    (tokenIn tokenOut : Token) : List String :=
  routeWithStables cfg chain hc ["USDT", "BUSD"] tokenIn tokenOut

/-! ## Quote engine -/

/-- `BaseDexService.getQuote`.  `routeFn` is the dynamically dispatched
`this.getSwapRoute` (each adapter overrides it).  Control flow follows the
source: empty route fails with `PairNotFound`; then the input amount is
parsed to base units (a parse error is caught as `QuoteFailed`); then the
`NO_CLIENT` guard; then the router's `getAmountsOut` simulation, whose
failure (or an empty result, which would make the subsequent indexing
throw) is caught as `QuoteFailed`; finally the output is formatted and the
price impact computed. -/
def baseGetQuote (cfg : DexConfig) (chain : ChainState) (hc : Bool)
    (routeFn : Token → Token → List String)
    (tokenIn tokenOut : Token) (amountIn : String) : Except DexErr QuoteResult :=
  if (routeFn tokenIn tokenOut).length = 0 then .error .PairNotFound
  else
    match parseUnits amountIn tokenIn.decimals with
    | none => .error .QuoteFailed
    | some amountInWei =>
      if !hc then .error .NoClient
      else
        match chain.getAmountsOut amountInWei (routeFn tokenIn tokenOut) with
        | none => .error .QuoteFailed
        | some amounts =>
          match amounts.getLast? with
          | none => .error .QuoteFailed
          | some amountOut =>
            .ok { amountOut := formatUnits amountOut tokenOut.decimals,
                  priceImpact := calculatePriceImpact cfg chain hc tokenIn tokenOut amountIn,
                  route := routeFn tokenIn tokenOut,
                  gasEstimate := some "200000" }

/-! ## Adapter wrap/unwrap detection and `getQuote` overrides -/

/-- `KalySwapService.isWrapOperation`: KLC → WKLC, matched by native flag
on the input and by symbol OR hardcoded WKLC address on the output. -/
def kalyIsWrapOperation (tokenIn tokenOut : Token) : Bool :=
  tokenIn.isNative &&
    (strToUpper tokenOut.symbol == "WKLC" ||
     strToLower tokenOut.address == strToLower WKLC_ADDRESS)

/-- `KalySwapService.isUnwrapOperation`: WKLC → KLC. -/
def kalyIsUnwrapOperation (tokenIn tokenOut : Token) : Bool :=
  (strToUpper tokenIn.symbol == "WKLC" ||
   strToLower tokenIn.address == strToLower WKLC_ADDRESS) &&
  tokenOut.isNative

/-- `UniswapV2Service.isWrapOperation`: ETH → WETH. -/
def camelotIsWrapOperation (tokenIn tokenOut : Token) : Bool :=
  tokenIn.isNative &&
    (strToUpper tokenOut.symbol == "WETH" ||
     strToLower tokenOut.address == strToLower WETH_ADDRESS)

/-- `UniswapV2Service.isUnwrapOperation`: WETH → ETH. -/
def camelotIsUnwrapOperation (tokenIn tokenOut : Token) : Bool :=
  (strToUpper tokenIn.symbol == "WETH" ||
   strToLower tokenIn.address == strToLower WETH_ADDRESS) &&
  tokenOut.isNative

/-- `PancakeSwapService.isWrapOperation`: BNB → WBNB. -/
def pancakeIsWrapOperation (tokenIn tokenOut : Token) : Bool :=
  tokenIn.isNative &&
    (strToUpper tokenOut.symbol == "WBNB" ||
     strToLower tokenOut.address == strToLower WBNB_ADDRESS)

/-- `PancakeSwapService.isUnwrapOperation`: WBNB → BNB. -/
def pancakeIsUnwrapOperation (tokenIn tokenOut : Token) : Bool :=
  (strToUpper tokenIn.symbol == "WBNB" ||
   strToLower tokenIn.address == strToLower WBNB_ADDRESS) &&
  tokenOut.isNative

/-- The 1:1 short-circuit result shared by the adapters' wrap/unwrap
branch: the input amount string verbatim, zero impact, the raw token
addresses as the route, no gas estimate field. -/
def wrapShortCircuit (tokenIn tokenOut : Token) (amountIn : String) : QuoteResult :=
  { amountOut := amountIn, priceImpact := 0,
    route := [tokenIn.address, tokenOut.address], gasEstimate := none }

/-- `KalySwapService.getQuote`: wrap/unwrap short-circuit, else the base
implementation with this adapter's route override. -/
def kalyGetQuote (cfg : DexConfig) (chain : ChainState) (hc : Bool)
    (tokenIn tokenOut : Token) (amountIn : String) : Except DexErr QuoteResult :=
  if kalyIsWrapOperation tokenIn tokenOut || kalyIsUnwrapOperation tokenIn tokenOut then
    .ok (wrapShortCircuit tokenIn tokenOut amountIn)
  else
    baseGetQuote cfg chain hc (kalyGetSwapRoute cfg chain hc) tokenIn tokenOut amountIn

/-- `UniswapV2Service.getQuote` (Camelot): wrap/unwrap short-circuit
(source writes `priceImpact: '0'`, the string), else the base
implementation with this adapter's route override. -/
def camelotGetQuote (cfg : DexConfig) (chain : ChainState) (hc : Bool)
    (tokenIn tokenOut : Token) (amountIn : String) : Except DexErr QuoteResult :=
  if camelotIsWrapOperation tokenIn tokenOut || camelotIsUnwrapOperation tokenIn tokenOut then
    .ok (wrapShortCircuit tokenIn tokenOut amountIn)
  else
    baseGetQuote cfg chain hc (camelotGetSwapRoute cfg chain hc) tokenIn tokenOut amountIn

/-- `PancakeSwapService.getQuote`: wrap/unwrap short-circuit, else the
base implementation with this adapter's route override. -/
def pancakeGetQuote (cfg : DexConfig) (chain : ChainState) (hc : Bool)
    (tokenIn tokenOut : Token) (amountIn : String) : Except DexErr QuoteResult :=
  if pancakeIsWrapOperation tokenIn tokenOut || pancakeIsUnwrapOperation tokenIn tokenOut then
    .ok (wrapShortCircuit tokenIn tokenOut amountIn)
  else
    baseGetQuote cfg chain hc (pancakeGetSwapRoute cfg chain hc) tokenIn tokenOut amountIn

/-! ## Swap executor -/

/-- `SwapParams` as consumed by `executeSwap` (the fields the executor
reads).  `deadline` is in minutes; `route` models the optional
precomputed `params.route`. -/
structure SwapParams where
  tokenIn : Token
  tokenOut : Token
  amountIn : String
  amountOutMin : String
  toAddr : String
  deadline : Nat
  route : Option (List String)
  deriving DecidableEq, Repr

/-- One argument of a `writeContract` invocation. -/
inductive CallArg where
  | nat (n : Nat)
  | addrList (l : List String)
  | addr (a : String)
  deriving DecidableEq, Repr

/-- The on-chain write an adapter's `executeSwap` submits: target
contract, function name, positional arguments, and the attached native
value (`none` when no `value` field is passed). -/
structure WriteCall where
  address : String
  functionName : String
  args : List CallArg
  value : Option Nat
  deriving DecidableEq, Repr

/-- Shared shape of the adapters' `executeSwap` (they differ only in the
wrapped-native contract address and the two native-variant router function
names).  Missing wallet/account fail with their own conditions; wrap and
unwrap call the wrapped-native contract's `deposit`/`withdraw`; otherwise
the route is the precomputed one or freshly resolved, an empty route fails
with `SwapFailed`, and the router variant is selected by the native flags,
with deadline `now + deadline minutes × 60` and native value attached only
on the native-input variant.  A `parseUnits` throw is caught as
`SwapFailed`. -/
def executeSwapShared (cfg : DexConfig) (_chain : ChainState) (_hc : Bool)
    (isWrapOp isUnwrapOp : Token → Token → Bool)
    (wrappedAddr nativeInName nativeOutName : String)
    (routeFn : Token → Token → List String)
    (hasWallet hasAccount : Bool) (now : Nat) (params : SwapParams) :
    Except DexErr WriteCall :=
  if !hasWallet then .error .NoWallet
  else if !hasAccount then .error .NoAccount
  else
    match parseUnits params.amountIn params.tokenIn.decimals with
    | none => .error .SwapFailed
    | some amountIn =>
      if isWrapOp params.tokenIn params.tokenOut then
        .ok { address := wrappedAddr, functionName := "deposit",
              args := [], value := some amountIn }
      else if isUnwrapOp params.tokenIn params.tokenOut then
        .ok { address := wrappedAddr, functionName := "withdraw",
              args := [.nat amountIn], value := none }
      else
        let route := match params.route with
          | some r => r
          | none => routeFn params.tokenIn params.tokenOut
        if route.length = 0 then .error .SwapFailed
        else
          match parseUnits params.amountOutMin params.tokenOut.decimals with
          | none => .error .SwapFailed
          | some amountOutMin =>
            let deadline := now + params.deadline * 60
            if params.tokenIn.isNative then
              .ok { address := cfg.router, functionName := nativeInName,
                    args := [.nat amountOutMin, .addrList route,
                             .addr params.toAddr, .nat deadline],
                    value := some amountIn }
            else if params.tokenOut.isNative then
              .ok { address := cfg.router, functionName := nativeOutName,
                    args := [.nat amountIn, .nat amountOutMin, .addrList route,
                             .addr params.toAddr, .nat deadline],
                    value := none }
            else
              .ok { address := cfg.router, functionName := "swapExactTokensForTokens",
                    args := [.nat amountIn, .nat amountOutMin, .addrList route,
                             .addr params.toAddr, .nat deadline],
                    value := none }

/-- `KalySwapService.executeSwap` (KLC function-name variants). -/
def kalyExecuteSwap (cfg : DexConfig) (chain : ChainState) (hc : Bool)
    (hasWallet hasAccount : Bool) (now : Nat) (params : SwapParams) :
    Except DexErr WriteCall :=
  executeSwapShared cfg chain hc kalyIsWrapOperation kalyIsUnwrapOperation
    WKLC_ADDRESS "swapExactKLCForTokens" "swapExactTokensForKLC"
    (kalyGetSwapRoute cfg chain hc) hasWallet hasAccount now params

/-- `UniswapV2Service.executeSwap` (ETH function-name variants). -/
def camelotExecuteSwap (cfg : DexConfig) (chain : ChainState) (hc : Bool)
    (hasWallet hasAccount : Bool) (now : Nat) (params : SwapParams) :
    Except DexErr WriteCall :=
  executeSwapShared cfg chain hc camelotIsWrapOperation camelotIsUnwrapOperation
    WETH_ADDRESS "swapExactETHForTokens" "swapExactTokensForETH"
    (camelotGetSwapRoute cfg chain hc) hasWallet hasAccount now params

/-! ## Spec-side route definition (for the refinement claim C2) -/

/-- Route resolution as the spec states it: resolve native endpoints to
the wrapped-native address; return the 2-element route on a direct pair;
else the wrapped-native bridge, attempted only when neither resolved
endpoint is the wrapped-native address and both legs have pairs; else the
first of the chain-specific ordered bridge candidates whose two legs both
have pairs (a candidate being skipped when an endpoint already is that
bridge); else the empty route. -/
def routeSpec (pairExists : Token → Token → Bool) (wrapped : String)
    (wrappedTok : Token) (bridges : List Token) (tokenIn tokenOut : Token) :
    List String :=
  let addressIn := if tokenIn.isNative then wrapped else tokenIn.address
  let addressOut := if tokenOut.isNative then wrapped else tokenOut.address
  if pairExists tokenIn tokenOut then [addressIn, addressOut]
  else if addressIn != wrapped && addressOut != wrapped &&
          pairExists tokenIn wrappedTok && pairExists wrappedTok tokenOut then
    [addressIn, wrapped, addressOut]
  else
    match bridges.find? (fun b =>
        addressIn != b.address && addressOut != b.address &&
        pairExists tokenIn b && pairExists b tokenOut) with
    | some b => [addressIn, b.address, addressOut]
    | none => []

/-! ## Concrete fixtures for witnesses and counterexamples -/

/-- The native coin (sentinel zero address, `isNative` set). -/
def tokNative : Token :=
  ⟨"0x0000000000000000000000000000000000000000", "KLC", 18, true⟩

/-- The real WKLC token. -/
def tokWKLC : Token := ⟨WKLC_ADDRESS, "WKLC", 18, false⟩

/-- The real WETH token. -/
def tokWETH : Token := ⟨WETH_ADDRESS, "WETH", 18, false⟩

/-- The real WBNB token. -/
def tokWBNB : Token := ⟨WBNB_ADDRESS, "WBNB", 18, false⟩

/-- A token merely *named* like WKLC, at an unrelated address. -/
def tokFakeWKLC : Token :=
  ⟨"0x00000000000000000000000000000000000000AA", "wklc", 18, false⟩

/-- A token merely *named* like WETH, at an unrelated address. -/
def tokFakeWETH : Token :=
  ⟨"0x00000000000000000000000000000000000000AA", "Weth", 18, false⟩

/-- A token merely *named* like WBNB, at an unrelated address. -/
def tokFakeWBNB : Token :=
  ⟨"0x00000000000000000000000000000000000000AA", "wBnB", 18, false⟩

/-- Fixture token `A` (0 decimals keep the arithmetic small). -/
def tokA : Token := ⟨"0xA", "AAA", 0, false⟩

/-- Fixture wrapped-native token `B` of the routing fixtures. -/
def tokB : Token := ⟨"0xB", "WXX", 0, false⟩

/-- Fixture token `C`. -/
def tokC : Token := ⟨"0xC", "CCC", 0, false⟩

/-- Fixture USDT. -/
def tokUSDT : Token := ⟨"0xD", "USDT", 0, false⟩

/-- Fixture USDC. -/
def tokUSDC : Token := ⟨"0xE", "USDC", 0, false⟩

/-- Fixture BUSD. -/
def tokBUSD : Token := ⟨"0xF", "BUSD", 0, false⟩

/-- Fixture configuration: wrapped-native `tokB` plus the three
stablecoins. -/
def cfgR : DexConfig :=
  ⟨[tokB, tokUSDT, tokUSDC, tokBUSD], "0xR", "0xFac", "0xB"⟩

/-- A chain on which every read fails (RPC errors everywhere). -/
def chainNone : ChainState :=
  ⟨fun _ _ => none, fun _ => none, fun _ => none, fun _ => none, fun _ _ => none⟩

/-- Fixture chain: pairs `A`–`B` (factory token0 = `A`, reserves 1/9) and
`B`–`C` (factory token0 = `B`, reserves 4/6) exist; every other pair
lookup returns the zero sentinel.  The router simulation answers only the
three-hop route `A → B → C`. -/
def chainFix : ChainState where
  getPair := fun x y =>
    if (x == "0xA" && y == "0xB") || (x == "0xB" && y == "0xA") then some "0xPAB"
    else if (x == "0xB" && y == "0xC") || (x == "0xC" && y == "0xB") then some "0xPBC"
    else some ZERO_ADDRESS
  pairToken0 := fun p =>
    if p == "0xPAB" then some "0xA"
    else if p == "0xPBC" then some "0xB"
    else none
  pairReserves := fun p =>
    if p == "0xPAB" then some (1, 9)
    else if p == "0xPBC" then some (4, 6)
    else none
  pairTotalSupply := fun p => if p == "0xPAB" then some 100 else none
  getAmountsOut := fun n r =>
    if r == ["0xA", "0xB", "0xC"] then some [n, n, n] else none

/-- Swap fixture: native input, precomputed 2-element route. -/
def paramsKN : SwapParams :=
  ⟨tokNative, tokA, "1", "0", "0xME", 5, some ["0xB", "0xA"]⟩

/-- Swap fixture: native output. -/
def paramsTN : SwapParams :=
  ⟨tokA, tokNative, "1", "0", "0xME", 5, some ["0xA", "0xB"]⟩

/-- Swap fixture: token to token through the bridge. -/
def paramsTT : SwapParams :=
  ⟨tokA, tokC, "1", "0", "0xME", 5, some ["0xA", "0xB", "0xC"]⟩

/-! ## Theorems -/

/-- C1: for every tokenIn/tokenOut pair that is a wrap (tokenIn is the
chain's native asset and tokenOut its wrapped form, identified by the
chain's wrapped-native contract address) or the symmetric unwrap case,
and every input amount string (in particular every positive one),
`getQuote` of the KalySwap and Camelot adapters returns `amountOut` equal
to `amountIn` verbatim, `priceImpact = 0` and
`route = [tokenIn.address, tokenOut.address]`, bypassing route resolution
and AMM math. -/
theorem getQuote_wrap_unwrap_one_to_one
    (cfg : DexConfig) (chain : ChainState) (hc : Bool)
    (tokenIn tokenOut : Token) (amountIn : String) :
    (((tokenIn.isNative = true ∧ strToLower tokenOut.address = strToLower WKLC_ADDRESS) ∨
      (strToLower tokenIn.address = strToLower WKLC_ADDRESS ∧ tokenOut.isNative = true)) →
      kalyGetQuote cfg chain hc tokenIn tokenOut amountIn =
        .ok ⟨amountIn, 0, [tokenIn.address, tokenOut.address], none⟩) ∧
    (((tokenIn.isNative = true ∧ strToLower tokenOut.address = strToLower WETH_ADDRESS) ∨
      (strToLower tokenIn.address = strToLower WETH_ADDRESS ∧ tokenOut.isNative = true)) →
      camelotGetQuote cfg chain hc tokenIn tokenOut amountIn =
        .ok ⟨amountIn, 0, [tokenIn.address, tokenOut.address], none⟩) := by
  constructor
  · rintro (⟨h1, h2⟩ | ⟨h1, h2⟩) <;>
      simp [kalyGetQuote, kalyIsWrapOperation, kalyIsUnwrapOperation,
            wrapShortCircuit, h1, h2]
  · rintro (⟨h1, h2⟩ | ⟨h1, h2⟩) <;>
      simp [camelotGetQuote, camelotIsWrapOperation, camelotIsUnwrapOperation,
            wrapShortCircuit, h1, h2]

/-- C1 witness: concrete wrap (native → WKLC) and unwrap (WETH → native)
quotes with input `"1.5"` return `"1.5"` one-to-one. -/
theorem getQuote_wrap_unwrap_one_to_one_witness :
    kalyGetQuote cfgR chainNone true tokNative tokWKLC "1.5" =
      .ok ⟨"1.5", 0, [tokNative.address, tokWKLC.address], none⟩ ∧
    camelotGetQuote cfgR chainNone true tokWETH tokNative "1.5" =
      .ok ⟨"1.5", 0, [tokWETH.address, tokNative.address], none⟩ :=
  ⟨(getQuote_wrap_unwrap_one_to_one cfgR chainNone true tokNative tokWKLC "1.5").1
      (Or.inl ⟨rfl, rfl⟩),
   (getQuote_wrap_unwrap_one_to_one cfgR chainNone true tokWETH tokNative "1.5").2
      (Or.inr ⟨rfl, rfl⟩)⟩

/-- C10: wrap/unwrap detection matches on token symbol OR address, so in
each adapter a tokenOut whose symbol merely upper-cases to the chain's
wrapped-native symbol is quoted 1:1 with zero price impact even when its
address is not the wrapped-native contract address (and symmetrically for
the unwrap direction on the input side). -/
theorem getQuote_wrap_by_symbol_only
    (cfg : DexConfig) (chain : ChainState) (hc : Bool)
    (tokenIn tokenOut : Token) (amountIn : String) :
    ((tokenIn.isNative = true → strToUpper tokenOut.symbol = "WKLC" →
      strToLower tokenOut.address ≠ strToLower WKLC_ADDRESS →
      kalyGetQuote cfg chain hc tokenIn tokenOut amountIn =
        .ok ⟨amountIn, 0, [tokenIn.address, tokenOut.address], none⟩) ∧
     (strToUpper tokenIn.symbol = "WKLC" →
      strToLower tokenIn.address ≠ strToLower WKLC_ADDRESS → tokenOut.isNative = true →
      kalyGetQuote cfg chain hc tokenIn tokenOut amountIn =
        .ok ⟨amountIn, 0, [tokenIn.address, tokenOut.address], none⟩)) ∧
    ((tokenIn.isNative = true → strToUpper tokenOut.symbol = "WETH" →
      strToLower tokenOut.address ≠ strToLower WETH_ADDRESS →
      camelotGetQuote cfg chain hc tokenIn tokenOut amountIn =
        .ok ⟨amountIn, 0, [tokenIn.address, tokenOut.address], none⟩) ∧
     (strToUpper tokenIn.symbol = "WETH" →
      strToLower tokenIn.address ≠ strToLower WETH_ADDRESS → tokenOut.isNative = true →
      camelotGetQuote cfg chain hc tokenIn tokenOut amountIn =
        .ok ⟨amountIn, 0, [tokenIn.address, tokenOut.address], none⟩)) ∧
    ((tokenIn.isNative = true → strToUpper tokenOut.symbol = "WBNB" →
      strToLower tokenOut.address ≠ strToLower WBNB_ADDRESS →
      pancakeGetQuote cfg chain hc tokenIn tokenOut amountIn =
        .ok ⟨amountIn, 0, [tokenIn.address, tokenOut.address], none⟩) ∧
     (strToUpper tokenIn.symbol = "WBNB" →
      strToLower tokenIn.address ≠ strToLower WBNB_ADDRESS → tokenOut.isNative = true →
      pancakeGetQuote cfg chain hc tokenIn tokenOut amountIn =
        .ok ⟨amountIn, 0, [tokenIn.address, tokenOut.address], none⟩)) := by
  refine ⟨⟨fun h1 h2 _ => ?_, fun h1 _ h2 => ?_⟩,
          ⟨fun h1 h2 _ => ?_, fun h1 _ h2 => ?_⟩,
          ⟨fun h1 h2 _ => ?_, fun h1 _ h2 => ?_⟩⟩ <;>
    simp [kalyGetQuote, kalyIsWrapOperation, kalyIsUnwrapOperation,
          camelotGetQuote, camelotIsWrapOperation, camelotIsUnwrapOperation,
          pancakeGetQuote, pancakeIsWrapOperation, pancakeIsUnwrapOperation,
          wrapShortCircuit, h1, h2]

/-- C10 witness: a token named `wklc` (resp. `Weth`, `wBnB`) at an
unrelated address is quoted 1:1 by the respective adapter. -/
theorem getQuote_wrap_by_symbol_only_witness :
    kalyGetQuote cfgR chainNone true tokNative tokFakeWKLC "7" =
      .ok ⟨"7", 0, [tokNative.address, tokFakeWKLC.address], none⟩ ∧
    camelotGetQuote cfgR chainNone true tokFakeWETH tokNative "7" =
      .ok ⟨"7", 0, [tokFakeWETH.address, tokNative.address], none⟩ ∧
    pancakeGetQuote cfgR chainNone true tokNative tokFakeWBNB "7" =
      .ok ⟨"7", 0, [tokNative.address, tokFakeWBNB.address], none⟩ :=
  ⟨(getQuote_wrap_by_symbol_only cfgR chainNone true tokNative tokFakeWKLC "7").1.1
      rfl rfl (by decide),
   (getQuote_wrap_by_symbol_only cfgR chainNone true tokFakeWETH tokNative "7").2.1.2
      rfl (by decide) rfl,
   (getQuote_wrap_by_symbol_only cfgR chainNone true tokNative tokFakeWBNB "7").2.2.1
      rfl rfl (by decide)⟩

/-- `getPairAddress` yields an address exactly when a client is present,
the factory call succeeds and the result is not the zero sentinel. -/
lemma getPairAddress_some_iff (cfg : DexConfig) (chain : ChainState) (hc : Bool)
    (tA tB : Token) (p : String) :
    getPairAddress cfg chain hc tA tB = some p ↔
      hc = true ∧
      chain.getPair (resolveAddress cfg tA) (resolveAddress cfg tB) = some p ∧
      p ≠ ZERO_ADDRESS := by
  unfold getPairAddress
  cases hc
  · simp
  · simp only [Bool.not_true, Bool.false_eq_true, if_false, true_and]
    cases hgp : chain.getPair (resolveAddress cfg tA) (resolveAddress cfg tB) with
    | none => simp
    | some q =>
      constructor
      · intro h
        by_cases hq : q = ZERO_ADDRESS
        · exfalso
          subst hq
          simp at h
        · have hqp : some q = some p := by simpa [hq] using h
          cases hqp
          exact ⟨rfl, hq⟩
      · rintro ⟨hqp, hp⟩
        cases hqp
        simp [hp]

/-- `getPairAddress` yields `null` exactly when the client is missing, the
factory call fails, or the factory returns the zero sentinel. -/
lemma getPairAddress_none_iff (cfg : DexConfig) (chain : ChainState) (hc : Bool)
    (tA tB : Token) :
    getPairAddress cfg chain hc tA tB = none ↔
      hc = false ∨
      chain.getPair (resolveAddress cfg tA) (resolveAddress cfg tB) = none ∨
      chain.getPair (resolveAddress cfg tA) (resolveAddress cfg tB) = some ZERO_ADDRESS := by
  unfold getPairAddress
  cases hc
  · simp
  · simp only [Bool.not_true, Bool.false_eq_true, if_false]
    cases hgp : chain.getPair (resolveAddress cfg tA) (resolveAddress cfg tB) with
    | none => simp
    | some q => by_cases hq : q = ZERO_ADDRESS <;> simp [beq_iff_eq, hq]

/-- C7: `getPairAddress` resolves native tokens to the wrapped-native
address, returns `null` exactly when the factory call fails, the factory
returns the all-zero sentinel, or the client is missing (never propagating
an exception), and otherwise returns the factory's pair address;
`getPairInfo` is `null` under the same no-pair condition, and additionally
exactly when reading reserves or total supply fails. -/
theorem pairResolver_null_contract (cfg : DexConfig) (chain : ChainState)
    (hc : Bool) (tA tB : Token) :
    (getPairAddress cfg chain hc tA tB = none ↔
      hc = false ∨
      chain.getPair (resolveAddress cfg tA) (resolveAddress cfg tB) = none ∨
      chain.getPair (resolveAddress cfg tA) (resolveAddress cfg tB) =
        some ZERO_ADDRESS) ∧
    (∀ p, getPairAddress cfg chain hc tA tB = some p →
      chain.getPair (resolveAddress cfg tA) (resolveAddress cfg tB) = some p ∧
      p ≠ ZERO_ADDRESS) ∧
    (getPairAddress cfg chain hc tA tB = none →
      getPairInfo cfg chain hc tA tB = none) ∧
    (∀ pa, getPairAddress cfg chain hc tA tB = some pa →
      (getPairInfo cfg chain hc tA tB = none ↔
        chain.pairReserves pa = none ∨ chain.pairTotalSupply pa = none)) := by
  refine ⟨getPairAddress_none_iff cfg chain hc tA tB, ?_, ?_, ?_⟩
  · intro p hp
    exact ((getPairAddress_some_iff cfg chain hc tA tB p).mp hp).2
  · intro h
    unfold getPairInfo
    rw [h]
  · intro pa hpa
    have hct : hc = true :=
      ((getPairAddress_some_iff cfg chain hc tA tB pa).mp hpa).1
    subst hct
    unfold getPairInfo
    simp only [hpa, Bool.not_true, Bool.false_eq_true, if_false]
    cases hr : chain.pairReserves pa with
    | none => simp [hr]
    | some rr =>
      obtain ⟨r0, r1⟩ := rr
      cases hts : chain.pairTotalSupply pa with
      | none => simp
      | some ts => simp

/-- C7 witness: on the concrete fixture, the resolver reports the factory
pair `0xPAB`, which is distinct from the zero sentinel. -/
theorem pairResolver_null_contract_witness :
    chainFix.getPair (resolveAddress cfgR tokA) (resolveAddress cfgR tokB) =
      some "0xPAB" ∧ "0xPAB" ≠ ZERO_ADDRESS :=
  (pairResolver_null_contract cfgR chainFix true tokA tokB).2.1 "0xPAB" (by decide)

/-- `tryStables` performs exactly the first-match search over the resolved
bridge tokens that the spec's ordered candidate list describes. -/
lemma tryStables_eq_find (cfg : DexConfig) (chain : ChainState) (hc : Bool)
    (tokenIn tokenOut : Token) (addressIn addressOut : String)
    (syms : List String) (toks : List Token)
    (hS : List.Forall₂ (fun sym tok =>
      cfg.tokens.find? (fun t => t.symbol == sym) = some tok) syms toks) :
    tryStables cfg chain hc tokenIn tokenOut addressIn addressOut syms =
      (toks.find? (fun b =>
        addressIn != b.address && addressOut != b.address &&
        canSwapDirectly cfg chain hc tokenIn b &&
        canSwapDirectly cfg chain hc b tokenOut)).map
        (fun b => [addressIn, b.address, addressOut]) := by
  induction hS with
  | nil => rfl
  | cons hst htail ih =>
    rename_i sym tok syms2 toks2
    simp only [tryStables, tryStable, hst]
    cases h1 : addressIn != tok.address && addressOut != tok.address with
    | false => simp [List.find?_cons, h1, ih]
    | true =>
      cases h2 : canSwapDirectly cfg chain hc tokenIn tok &&
          canSwapDirectly cfg chain hc tok tokenOut with
      | false => simp [tryBridgeToken, List.find?_cons, h1, h2, ih]
      | true => simp [tryBridgeToken, List.find?_cons, h1, h2]

/-- `tryWrappedNative` reduces to the flat condition the spec states, once
the config resolves the wrapped-native token. -/
lemma tryWrappedNative_eq (cfg : DexConfig) (chain : ChainState) (hc : Bool)
    (tokenIn tokenOut : Token) (addressIn addressOut : String) (wTok : Token)
    (hW : cfg.tokens.find?
      (fun t => strToLower t.address == strToLower cfg.wethAddress) = some wTok) :
    tryWrappedNative cfg chain hc tokenIn tokenOut addressIn addressOut =
      (if addressIn != cfg.wethAddress && addressOut != cfg.wethAddress &&
          canSwapDirectly cfg chain hc tokenIn wTok &&
          canSwapDirectly cfg chain hc wTok tokenOut
       then some [addressIn, cfg.wethAddress, addressOut] else none) := by
  simp only [tryWrappedNative, tryBridgeToken, hW]
  cases h1 : addressIn != cfg.wethAddress && addressOut != cfg.wethAddress with
  | false => simp [h1]
  | true =>
    cases h2 : canSwapDirectly cfg chain hc tokenIn wTok &&
        canSwapDirectly cfg chain hc wTok tokenOut with
    | false => simp [h1, h2]
    | true => simp [h1, h2]

/-- The shared `getSwapRoute` body implements the spec's priority search
once the wrapped-native and stablecoin bridge tokens resolve in the
config. -/
lemma routeWithStables_eq_routeSpec (cfg : DexConfig) (chain : ChainState)
    (hc : Bool) (wTok : Token)
    (hW : cfg.tokens.find?
      (fun t => strToLower t.address == strToLower cfg.wethAddress) = some wTok)
    (syms : List String) (toks : List Token)
    (hS : List.Forall₂ (fun sym tok =>
      cfg.tokens.find? (fun t => t.symbol == sym) = some tok) syms toks)
    (tokenIn tokenOut : Token) :
    routeWithStables cfg chain hc syms tokenIn tokenOut =
      routeSpec (canSwapDirectly cfg chain hc) cfg.wethAddress wTok toks
        tokenIn tokenOut := by
  unfold routeWithStables routeSpec resolveAddress
  cases hd : canSwapDirectly cfg chain hc tokenIn tokenOut with
  | true => simp [hd]
  | false =>
    simp only [hd, Bool.false_eq_true, if_false]
    rw [tryWrappedNative_eq cfg chain hc tokenIn tokenOut _ _ wTok hW]
    cases hw2 : (if tokenIn.isNative then cfg.wethAddress else tokenIn.address)
          != cfg.wethAddress &&
        (if tokenOut.isNative then cfg.wethAddress else tokenOut.address)
          != cfg.wethAddress &&
        canSwapDirectly cfg chain hc tokenIn wTok &&
        canSwapDirectly cfg chain hc wTok tokenOut with
    | true => simp [hw2]
    | false =>
      simp only [hw2, Bool.false_eq_true, if_false]
      rw [tryStables_eq_find cfg chain hc tokenIn tokenOut _ _ syms toks hS]
      cases hf : toks.find? (fun b =>
          (if tokenIn.isNative then cfg.wethAddress else tokenIn.address)
            != b.address &&
          (if tokenOut.isNative then cfg.wethAddress else tokenOut.address)
            != b.address &&
          canSwapDirectly cfg chain hc tokenIn b &&
          canSwapDirectly cfg chain hc b tokenOut) with
      | none => simp
      | some b => simp

/-- C2: each adapter's `getSwapRoute` first resolves native endpoints to
the wrapped-native address, then returns the first candidate in priority
order: direct pair (2-element route); wrapped-native bridge, attempted
only when neither resolved endpoint is the wrapped-native address, when
both legs have pairs; the chain-specific ordered stablecoin bridges (USDT
on KalyChain; USDC then USDT on Arbitrum; USDT then BUSD on BSC) with the
same two-pair-existence check; and the empty route when no candidate
exists — stated as equality with `routeSpec`, the spec-side search, given
that the config resolves the bridge tokens. -/
theorem getSwapRoute_priority_order (cfg : DexConfig) (chain : ChainState)
    (hc : Bool) (wTok usdt usdc busd : Token)
    (hW : cfg.tokens.find?
      (fun t => strToLower t.address == strToLower cfg.wethAddress) = some wTok)
    (hT : cfg.tokens.find? (fun t => t.symbol == "USDT") = some usdt)
    (hC : cfg.tokens.find? (fun t => t.symbol == "USDC") = some usdc)
    (hB : cfg.tokens.find? (fun t => t.symbol == "BUSD") = some busd)
    (tokenIn tokenOut : Token) :
    kalyGetSwapRoute cfg chain hc tokenIn tokenOut =
      routeSpec (canSwapDirectly cfg chain hc) cfg.wethAddress wTok [usdt]
        tokenIn tokenOut ∧
    camelotGetSwapRoute cfg chain hc tokenIn tokenOut =
      routeSpec (canSwapDirectly cfg chain hc) cfg.wethAddress wTok [usdc, usdt]
        tokenIn tokenOut ∧
    pancakeGetSwapRoute cfg chain hc tokenIn tokenOut =
      routeSpec (canSwapDirectly cfg chain hc) cfg.wethAddress wTok [usdt, busd]
        tokenIn tokenOut :=
  ⟨routeWithStables_eq_routeSpec cfg chain hc wTok hW _ _
      (.cons hT .nil) tokenIn tokenOut,
   routeWithStables_eq_routeSpec cfg chain hc wTok hW _ _
      (.cons hC (.cons hT .nil)) tokenIn tokenOut,
   routeWithStables_eq_routeSpec cfg chain hc wTok hW _ _
      (.cons hT (.cons hB .nil)) tokenIn tokenOut⟩

/-- C2 witness: on the concrete fixture config (wrapped-native `tokB`,
stables USDT/USDC/BUSD), the KalySwap route search agrees with the
spec-side search on the pair `A`/`C`. -/
theorem getSwapRoute_priority_order_witness :
    kalyGetSwapRoute cfgR chainFix true tokA tokC =
      routeSpec (canSwapDirectly cfgR chainFix true) cfgR.wethAddress tokB
        [tokUSDT] tokA tokC :=
  (getSwapRoute_priority_order cfgR chainFix true tokB tokUSDT tokUSDC tokBUSD
    (by decide) (by decide) (by decide) (by decide) tokA tokC).1

/-- Without a client every pair lookup is caught to `null`, so no direct
pair is ever reported. -/
lemma canSwapDirectly_no_client (cfg : DexConfig) (chain : ChainState)
    (tA tB : Token) : canSwapDirectly cfg chain false tA tB = false := rfl

/-- Without a client a stablecoin bridge attempt finds nothing. -/
lemma tryStable_no_client (cfg : DexConfig) (chain : ChainState)
    (tokenIn tokenOut : Token) (addressIn addressOut sym : String) :
    tryStable cfg chain false tokenIn tokenOut addressIn addressOut sym = none := by
  unfold tryStable tryBridgeToken
  cases hf : cfg.tokens.find? (fun t => t.symbol == sym) with
  | none => rfl
  | some sTok => simp [canSwapDirectly_no_client]

/-- Without a client no stablecoin bridge in the list finds a route. -/
lemma tryStables_no_client (cfg : DexConfig) (chain : ChainState)
    (tokenIn tokenOut : Token) (addressIn addressOut : String) :
    ∀ syms, tryStables cfg chain false tokenIn tokenOut addressIn addressOut
      syms = none
  | [] => rfl
  | sym :: rest => by
    simp [tryStables, tryStable_no_client,
      tryStables_no_client cfg chain tokenIn tokenOut addressIn addressOut rest]

/-- Without a client the wrapped-native bridge attempt finds nothing. -/
lemma tryWrappedNative_no_client (cfg : DexConfig) (chain : ChainState)
    (tokenIn tokenOut : Token) (addressIn addressOut : String) :
    tryWrappedNative cfg chain false tokenIn tokenOut addressIn addressOut =
      none := by
  unfold tryWrappedNative tryBridgeToken
  cases hf : cfg.tokens.find?
      (fun t => strToLower t.address == strToLower cfg.wethAddress) with
  | none => simp [hf]
  | some wTok => simp [hf, canSwapDirectly_no_client]

/-- Without a client the route search of the base service and of every
adapter returns the empty route. -/
lemma routeWithStables_no_client (cfg : DexConfig) (chain : ChainState)
    (syms : List String) (tokenIn tokenOut : Token) :
    routeWithStables cfg chain false syms tokenIn tokenOut = [] := by
  unfold routeWithStables
  simp [canSwapDirectly_no_client, tryWrappedNative_no_client,
    tryStables_no_client]

/-- C3 (amended): `getQuote` fails with the distinct `PairNotFound`
condition — not a generic quote failure — whenever the route planner
returns the empty route; a router-simulation failure is reported as the
distinct `QuoteFailed` condition; but a missing client also surfaces as
`PairNotFound` (every pair lookup catches the thrown `NoClient` error and
reports "no pair", so the planner returns the empty route and the
`NoClient` guard inside `getQuote` is never reached). -/
theorem getQuote_error_taxonomy (cfg : DexConfig) (chain : ChainState)
    (hc : Bool) (routeFn : Token → Token → List String)
    (tokenIn tokenOut : Token) (amountIn : String) :
    (routeFn tokenIn tokenOut = [] →
      baseGetQuote cfg chain hc routeFn tokenIn tokenOut amountIn =
        .error .PairNotFound) ∧
    (∀ aWei, parseUnits amountIn tokenIn.decimals = some aWei →
      routeFn tokenIn tokenOut ≠ [] →
      chain.getAmountsOut aWei (routeFn tokenIn tokenOut) = none →
      baseGetQuote cfg chain true routeFn tokenIn tokenOut amountIn =
        .error .QuoteFailed) ∧
    (∀ syms, baseGetQuote cfg chain false
        (routeWithStables cfg chain false syms) tokenIn tokenOut amountIn =
      .error .PairNotFound) := by
  refine ⟨?_, ?_, ?_⟩
  · intro h
    unfold baseGetQuote
    rw [h]
    rfl
  · intro aWei hpu hne hga
    unfold baseGetQuote
    rw [if_neg (by simpa [List.length_eq_zero] using hne)]
    simp [hpu, hga]
  · intro syms
    unfold baseGetQuote
    rw [routeWithStables_no_client]
    rfl

/-- C3 witness: an all-failing chain yields `PairNotFound`; a chain whose
router simulation fails on an existing direct route yields `QuoteFailed`;
a missing client yields `PairNotFound`. -/
theorem getQuote_error_taxonomy_witness :
    baseGetQuote cfgR chainNone true (baseGetSwapRoute cfgR chainNone true)
      tokA tokC "1" = .error .PairNotFound ∧
    baseGetQuote cfgR chainFix true (baseGetSwapRoute cfgR chainFix true)
      tokA tokB "1" = .error .QuoteFailed ∧
    baseGetQuote cfgR chainFix false (routeWithStables cfgR chainFix false ["USDT"])
      tokA tokC "1" = .error .PairNotFound :=
  ⟨(getQuote_error_taxonomy cfgR chainNone true
      (baseGetSwapRoute cfgR chainNone true) tokA tokC "1").1 (by decide),
   (getQuote_error_taxonomy cfgR chainFix true
      (baseGetSwapRoute cfgR chainFix true) tokA tokB "1").2.1 1
      (by decide) (by decide) (by decide),
   (getQuote_error_taxonomy cfgR chainFix false
      (routeWithStables cfgR chainFix false ["USDT"]) tokA tokC "1").2.2 ["USDT"]⟩

/-- C3 counterexample: with the client missing, `getQuote` fails with
`PairNotFound`, not with the `NoClient` condition the claim asserts for
that read-path failure. -/
theorem getQuote_missing_client_pairNotFound_eval :
    baseGetQuote cfgR chainFix false (baseGetSwapRoute cfgR chainFix false)
      tokA tokB "1" = .error .PairNotFound ∧
    DexErr.PairNotFound ≠ DexErr.NoClient := by
  exact ⟨by decide, by decide⟩

/-- A reported non-direct-pair means the pair address resolved to `null`. -/
lemma getPairAddress_none_of_not_canSwap (cfg : DexConfig) (chain : ChainState)
    (hc : Bool) (tA tB : Token)
    (h : canSwapDirectly cfg chain hc tA tB = false) :
    getPairAddress cfg chain hc tA tB = none := by
  cases hg : getPairAddress cfg chain hc tA tB with
  | none => rfl
  | some p =>
    unfold canSwapDirectly at h
    rw [hg] at h
    simp at h

/-- With no direct pair, `calculatePriceImpact` returns `0`. -/
lemma calculatePriceImpact_of_no_pair (cfg : DexConfig) (chain : ChainState)
    (hc : Bool) (tokenIn tokenOut : Token) (amountIn : String)
    (h : getPairAddress cfg chain hc tokenIn tokenOut = none) :
    calculatePriceImpact cfg chain hc tokenIn tokenOut amountIn = 0 := by
  unfold calculatePriceImpact
  rw [h]

/-- A 3-element result of the shared route search implies the direct pair
was absent. -/
lemma routeWithStables_length_three_no_direct (cfg : DexConfig)
    (chain : ChainState) (hc : Bool) (syms : List String)
    (tokenIn tokenOut : Token)
    (h : (routeWithStables cfg chain hc syms tokenIn tokenOut).length = 3) :
    canSwapDirectly cfg chain hc tokenIn tokenOut = false := by
  cases hd : canSwapDirectly cfg chain hc tokenIn tokenOut with
  | false => rfl
  | true =>
    exfalso
    unfold routeWithStables at h
    rw [if_pos hd] at h
    simp at h

/-- C5 (amended): for every quote of the base implementation (under any
adapter's route override, all of which share the `routeWithStables` body)
whose resolved route is a multi-hop route of length 3, the reported
`priceImpact` is `0` — because `calculatePriceImpact` consults the direct
`tokenIn`/`tokenOut` pair, which does not exist when the route is
multi-hop — not a value computed from the first hop's reserves. -/
theorem multihop_quote_priceImpact_zero (cfg : DexConfig) (chain : ChainState)
    (hc : Bool) (syms : List String) (tokenIn tokenOut : Token)
    (amountIn : String) (q : QuoteResult)
    (h : baseGetQuote cfg chain hc (routeWithStables cfg chain hc syms)
      tokenIn tokenOut amountIn = .ok q)
    (hlen : q.route.length = 3) :
    q.priceImpact = 0 := by
  unfold baseGetQuote at h
  split at h
  · exact absurd h (by simp)
  · split at h
    · exact absurd h (by simp)
    · split at h
      · exact absurd h (by simp)
      · split at h
        · exact absurd h (by simp)
        · split at h
          · exact absurd h (by simp)
          · rename_i amounts amountOut _
            have hq : q = QuoteResult.mk (formatUnits amountOut tokenOut.decimals)
                (calculatePriceImpact cfg chain hc tokenIn tokenOut amountIn)
                (routeWithStables cfg chain hc syms tokenIn tokenOut)
                (some "200000") := by
              cases h
              rfl
            subst hq
            apply calculatePriceImpact_of_no_pair
            apply getPairAddress_none_of_not_canSwap
            exact routeWithStables_length_three_no_direct cfg chain hc syms
              tokenIn tokenOut hlen

/-- C5 witness: the concrete three-hop quote `A → B → C` carries
`priceImpact = 0`. -/
theorem multihop_quote_priceImpact_zero_witness :
    (⟨"1", 0, ["0xA", "0xB", "0xC"], some "200000"⟩ : QuoteResult).priceImpact
      = 0 :=
  multihop_quote_priceImpact_zero cfgR chainFix true [] tokA tokC "1"
    ⟨"1", 0, ["0xA", "0xB", "0xC"], some "200000"⟩ (by decide) (by decide)

/-- C5 counterexample: on the concrete fixture the resolved route is the
3-element route `A → B → C` and `getQuote` reports `priceImpact = 0`,
whereas the impact computed using the input-side reserve of the first
hop's pair (the `A`/`B` pair, reserves 1/9, amount 1) is `50 ≠ 0` — so the
reported impact is not computed from the first hop's pair. -/
theorem multihop_quote_ignores_first_hop_reserve :
    baseGetQuote cfgR chainFix true (baseGetSwapRoute cfgR chainFix true)
      tokA tokC "1" =
      .ok ⟨"1", 0, ["0xA", "0xB", "0xC"], some "200000"⟩ ∧
    calculatePriceImpact cfgR chainFix true tokA tokB "1" = 50 ∧
    (0 : ℚ) ≠ 50 := by
  refine ⟨by decide, ?_, by norm_num⟩
  have hpa : getPairAddress cfgR chainFix true tokA tokB = some "0xPAB" := by
    decide
  have hres : chainFix.pairReserves "0xPAB" = some (1, 9) := by decide
  have ht0 : chainFix.pairToken0 "0xPAB" = some "0xA" := by decide
  have hp : parseDecimalQ "1" = some 1 := by decide
  have hb : (strToLower "0xA" == strToLower (resolveAddress cfgR tokA)) = true := by
    decide
  unfold calculatePriceImpact
  simp only [hpa, hres, ht0, hp, hb, if_true]
  norm_num [priceImpactFormula, tokA, min_def]

/-- C6 (code evaluation): on a pair whose factory-assigned `token0` is the
second argument's token, `getPairInfo` nevertheless returns `token0 =
tokenA` and `token1 = tokenB` in the caller's argument order, while
`reserve0`/`reserve1` are the pair contract's factory-ordered values — so
the returned `token0` (address `0xB`) is not the factory's `token0`
(address `0xA`), and `reserve0 = 1` is the reserve of the factory's
`token0`, not of the returned `token0`. -/
theorem getPairInfo_caller_order_eval :
    getPairInfo cfgR chainFix true tokB tokA =
      some ⟨tokB, tokA, "0xPAB", 1, 9, 100⟩ ∧
    chainFix.pairToken0 "0xPAB" = some "0xA" ∧
    tokB.address ≠ "0xA" := by
  exact ⟨by decide, by decide, by decide⟩

/-- C8: for every non-wrap/unwrap swap with a non-empty route and
parseable amounts, `executeSwap` selects among three distinct router entry
points by the native/token combination: native input invokes the chain's
native-input name (`swapExactKLCForTokens` on KalySwap,
`swapExactETHForTokens` on Camelot) attaching the parsed input amount as
native value; native output invokes the native-output name
(`swapExactTokensForKLC` / `swapExactTokensForETH`) with no attached
value; otherwise `swapExactTokensForTokens` with no attached value — each
called with the slippage-adjusted minimum output and the absolute deadline
`now + deadline-minutes × 60`. -/
theorem executeSwap_variant_selection (cfg : DexConfig) (chain : ChainState)
    (hc : Bool) (now : Nat) (params : SwapParams) (aIn aOutMin : Nat)
    (routeK routeC : List String)
    (hkw : kalyIsWrapOperation params.tokenIn params.tokenOut = false)
    (hku : kalyIsUnwrapOperation params.tokenIn params.tokenOut = false)
    (hcw : camelotIsWrapOperation params.tokenIn params.tokenOut = false)
    (hcu : camelotIsUnwrapOperation params.tokenIn params.tokenOut = false)
    (hpin : parseUnits params.amountIn params.tokenIn.decimals = some aIn)
    (hpout : parseUnits params.amountOutMin params.tokenOut.decimals = some aOutMin)
    (hrK : (match params.route with
            | some r => r
            | none => kalyGetSwapRoute cfg chain hc params.tokenIn params.tokenOut)
           = routeK)
    (hrC : (match params.route with
            | some r => r
            | none => camelotGetSwapRoute cfg chain hc params.tokenIn params.tokenOut)
           = routeC)
    (hneK : routeK ≠ []) (hneC : routeC ≠ []) :
    (params.tokenIn.isNative = true →
      kalyExecuteSwap cfg chain hc true true now params =
        .ok ⟨cfg.router, "swapExactKLCForTokens",
             [.nat aOutMin, .addrList routeK, .addr params.toAddr,
              .nat (now + params.deadline * 60)], some aIn⟩ ∧
      camelotExecuteSwap cfg chain hc true true now params =
        .ok ⟨cfg.router, "swapExactETHForTokens",
             [.nat aOutMin, .addrList routeC, .addr params.toAddr,
              .nat (now + params.deadline * 60)], some aIn⟩) ∧
    (params.tokenIn.isNative = false → params.tokenOut.isNative = true →
      kalyExecuteSwap cfg chain hc true true now params =
        .ok ⟨cfg.router, "swapExactTokensForKLC",
             [.nat aIn, .nat aOutMin, .addrList routeK, .addr params.toAddr,
              .nat (now + params.deadline * 60)], none⟩ ∧
      camelotExecuteSwap cfg chain hc true true now params =
        .ok ⟨cfg.router, "swapExactTokensForETH",
             [.nat aIn, .nat aOutMin, .addrList routeC, .addr params.toAddr,
              .nat (now + params.deadline * 60)], none⟩) ∧
    (params.tokenIn.isNative = false → params.tokenOut.isNative = false →
      kalyExecuteSwap cfg chain hc true true now params =
        .ok ⟨cfg.router, "swapExactTokensForTokens",
             [.nat aIn, .nat aOutMin, .addrList routeK, .addr params.toAddr,
              .nat (now + params.deadline * 60)], none⟩ ∧
      camelotExecuteSwap cfg chain hc true true now params =
        .ok ⟨cfg.router, "swapExactTokensForTokens",
             [.nat aIn, .nat aOutMin, .addrList routeC, .addr params.toAddr,
              .nat (now + params.deadline * 60)], none⟩) := by
  refine ⟨fun h1 => ⟨?_, ?_⟩, fun h1 h2 => ⟨?_, ?_⟩, fun h1 h2 => ⟨?_, ?_⟩⟩ <;>
    simp_all [kalyExecuteSwap, camelotExecuteSwap, executeSwapShared,
      List.length_eq_zero]

/-- C8 witness: concrete native-in, native-out and token-to-token swaps
select the three distinct entry points, with native value attached only on
the native-input variant. -/
theorem executeSwap_variant_selection_witness :
    kalyExecuteSwap cfgR chainFix true true true 1000 paramsKN =
      .ok ⟨cfgR.router, "swapExactKLCForTokens",
           [.nat 0, .addrList ["0xB", "0xA"], .addr "0xME",
            .nat (1000 + 5 * 60)], some (10 ^ 18)⟩ ∧
    camelotExecuteSwap cfgR chainFix true true true 1000 paramsTN =
      .ok ⟨cfgR.router, "swapExactTokensForETH",
           [.nat 1, .nat 0, .addrList ["0xA", "0xB"], .addr "0xME",
            .nat (1000 + 5 * 60)], none⟩ ∧
    kalyExecuteSwap cfgR chainFix true true true 1000 paramsTT =
      .ok ⟨cfgR.router, "swapExactTokensForTokens",
           [.nat 1, .nat 0, .addrList ["0xA", "0xB", "0xC"], .addr "0xME",
            .nat (1000 + 5 * 60)], none⟩ :=
  ⟨((executeSwap_variant_selection cfgR chainFix true 1000 paramsKN (10 ^ 18) 0
      ["0xB", "0xA"] ["0xB", "0xA"] (by decide) (by decide) (by decide)
      (by decide) (by decide) (by decide) rfl rfl (by decide) (by decide)).1
      rfl).1,
   ((executeSwap_variant_selection cfgR chainFix true 1000 paramsTN 1 0
      ["0xA", "0xB"] ["0xA", "0xB"] (by decide) (by decide) (by decide)
      (by decide) (by decide) (by decide) rfl rfl (by decide) (by decide)).2.1
      rfl rfl).2,
   ((executeSwap_variant_selection cfgR chainFix true 1000 paramsTT 1 0
      ["0xA", "0xB", "0xC"] ["0xA", "0xB", "0xC"] (by decide) (by decide)
      (by decide) (by decide) (by decide) (by decide) rfl rfl (by decide)
      (by decide)).2.2 rfl rfl).1⟩
